import Mathlib

/-!
# dotcom-exporter: a shallow embedding of `main.go`

The exporter scrapes the dotcom-monitor XML API and republishes the device
states as Prometheus gauges.  This file embeds the collector code of
`main.go` (`Device.Collect`, `DotcomMonitorConfig.Collect`,
`DotcomMonitor.scrape`, `DotcomMonitor.Collect`) together with the library
functions it calls, and proves properties of the embedding.

Conventions of the embedding

* A Go `string` is a Lean `String`; where Go looks at the bytes of a string
  (`url.QueryEscape`, `slices.Sort`) the embedding looks at its UTF-8 bytes,
  each a `Nat` below 256.
* A `chan<- prometheus.Metric` is the list of the metrics sent on it so far;
  a send appends at the end.
* A Go panic is the `Except.error` of the outer `Except String`; the `error`
  a Go function returns is an `Option GoError` (`none` is `nil`).
* The `float64` gauge values of the program are the constants `0`, `1` and
  `2`; they are kept as natural numbers.
* `time.Now()` reads a logical clock (a `Nat`); the blocking HTTP call
  advances it.
-/

namespace Dotcom

/-! ## The Prometheus client library, as far as the exporter uses it -/

/-- Value types of `prometheus.ValueType`. -/
inductive ValueType where
  | CounterValue
  | GaugeValue
  | UntypedValue
  deriving DecidableEq, Repr

/-- Descriptor of a metric family (`prometheus.Desc`): fully qualified name,
help text and the names of the variable labels. -/
structure Desc where
  fqName : String
  help : String
  variableLabels : List String
  deriving DecidableEq, Repr

/-- The function `prometheus.BuildFQName`: joins the non-empty parts with an
underscore; an empty name gives the empty string. -/
def BuildFQName (ns subsystem name : String) : String :=
  if name = "" then ""
  else if ns ≠ "" ∧ subsystem ≠ "" then ns ++ "_" ++ subsystem ++ "_" ++ name
  else if ns ≠ "" then ns ++ "_" ++ name
  else if subsystem ≠ "" then subsystem ++ "_" ++ name
  else name

/-- The function `prometheus.NewDesc` without constant labels. -/
def NewDesc (fqName help : String) (variableLabels : List String) : Desc :=
  { fqName := fqName, help := help, variableLabels := variableLabels }

/-- A metric sample as it travels on the channel: descriptor, value type,
value, label pairs and the optional explicit timestamp. -/
structure Metric where
  desc : Desc
  valType : ValueType
  val : Nat
  labelPairs : List (String × String)
  timestamp : Option Nat
  deriving DecidableEq, Repr

/-- UTF-8 encoding of one character, as a list of bytes. -/
def utf8Bytes (c : Char) : List Nat :=
  let v := c.toNat
  if v < 0x80 then [v]
  else if v < 0x800 then [0xC0 + v / 64, 0x80 + v % 64]
  else if v < 0x10000 then [0xE0 + v / 4096, 0x80 + (v / 64) % 64, 0x80 + v % 64]
  else [0xF0 + v / 262144, 0x80 + (v / 4096) % 64, 0x80 + (v / 64) % 64, 0x80 + v % 64]

/-- The bytes of a Go string. -/
def bytes (s : String) : List Nat :=
  s.data.flatMap utf8Bytes

/-- Lexicographic order on byte sequences, strict. -/
def bytesLt : List Nat → List Nat → Bool
  | [], [] => false
  | [], _ :: _ => true
  | _ :: _, [] => false
  | a :: as, b :: bs => if a < b then true else if b < a then false else bytesLt as bs

/-- Go's `<` on strings: byte-wise lexicographic comparison. -/
def strLt (a b : String) : Bool :=
  bytesLt (bytes a) (bytes b)

/-- Insertion into a list that is sorted by the key `key`, before the first
element whose key is not below the key of the new element. -/
def insertByKey {α : Type} (key : α → String) (p : α) : List α → List α
  | [] => [p]
  | q :: qs => if strLt (key q) (key p) then q :: insertByKey key p qs else p :: q :: qs

/-- Sorting by a string key in Go's string order (the keys the exporter sorts
are pairwise distinct, so every sorting algorithm gives this result). -/
def sortByKey {α : Type} (key : α → String) : List α → List α
  | [] => []
  | p :: ps => insertByKey key p (sortByKey key ps)

/-- The function `prometheus.MakeLabelPairs`: the i-th variable label gets the
i-th label value, then the pairs are sorted by name
(`internal.LabelPairSorter`). -/
def MakeLabelPairs (desc : Desc) (labelValues : List String) : List (String × String) :=
  sortByKey Prod.fst (desc.variableLabels.zip labelValues)

/-- The function `prometheus.NewConstMetric`: fails when the number of label
values differs from the number of variable labels of the descriptor. Its
other check, that every label value is valid UTF-8, holds for every `String`. -/
def NewConstMetric (desc : Desc) (valueType : ValueType) (value : Nat)
    (labelValues : List String) : Except String Metric :=
  if labelValues.length ≠ desc.variableLabels.length then
    .error "inconsistent label cardinality"
  else
    .ok { desc := desc, valType := valueType, val := value,
          labelPairs := MakeLabelPairs desc labelValues, timestamp := none }

/-- The function `prometheus.MustNewConstMetric`: panics where
`NewConstMetric` returns an error. -/
def MustNewConstMetric (desc : Desc) (valueType : ValueType) (value : Nat)
    (labelValues : List String) : Except String Metric :=
  NewConstMetric desc valueType value labelValues

/-- The function `prometheus.NewMetricWithTimestamp`. -/
def NewMetricWithTimestamp (t : Nat) (m : Metric) : Metric :=
  { m with timestamp := some t }

/-! ## `main.go`: constants, descriptors, device records -/

/-- Constant `Down` of `main.go`. -/
def Down : String := "Down"

/-- Constant `Up` of `main.go`. -/
def Up : String := "Up"

/-- Descriptor of the scrape-success gauge. -/
def dotcomScrapeSuccessDesc : Desc :=
  NewDesc (BuildFQName "dotcom" "" "scrape_success")
    "Whether scraping dotcom device status was successful." []

/-- Descriptor of the per-device status gauge. -/
def dotcomDeviceStatusDesc : Desc :=
  NewDesc (BuildFQName "dotcom" "device" "status")
    "Whether the dotcom alert is active or not" ["id", "name", "status"]

/-- Device is a target that dotcom monitor monitors. -/
structure Device where
  ID : String
  Name : String
  State : String
  Status : String
  deriving DecidableEq, Repr

/-- Top level structure contained in the XML response. -/
structure DotcomMonitorConfig where
  Devices : List Device
  deriving DecidableEq, Repr

/-- The `switch d.State` of `Device.Collect`. -/
def stateValue (state : String) : Nat :=
  if state = Down then 0
  else if state = Up then 1
  else 2

/-- The method `Device.Collect`: sends one gauge for the device on `ch`. -/
def Device.Collect (d : Device) (ch : List Metric) : Except String (List Metric) := do
  let state := stateValue d.State
  let m ← MustNewConstMetric dotcomDeviceStatusDesc .GaugeValue state [d.ID, d.Name, d.Status]
  pure (ch ++ [m])

/-- The loop of `DotcomMonitorConfig.Collect` over the remaining devices. -/
def collectDevices : List Device → List Metric → Except String (List Metric)
  | [], ch => pure ch
  | d :: ds, ch => do
    let ch1 ← d.Collect ch
    collectDevices ds ch1

/-- The method `DotcomMonitorConfig.Collect`: collects each device in the
order of the response. -/
def DotcomMonitorConfig.Collect (c : DotcomMonitorConfig) (ch : List Metric) :
    Except String (List Metric) :=
  collectDevices c.Devices ch


/-! ## The part of `net/url` behind `params.Encode()` -/

/-- The function `shouldEscape` of `net/url` in the mode
`encodeQueryComponent`: letters, digits and the marks `-`, `_`, `.`, `~` are
kept, every other byte is escaped. -/
def shouldEscape (c : Nat) : Bool :=
  if ('a'.toNat ≤ c ∧ c ≤ 'z'.toNat) ∨ ('A'.toNat ≤ c ∧ c ≤ 'Z'.toNat)
      ∨ ('0'.toNat ≤ c ∧ c ≤ '9'.toNat) then false
  else if c = '-'.toNat ∨ c = '_'.toNat ∨ c = '.'.toNat ∨ c = '~'.toNat then false
  else true

/-- The table `upperhex` of `net/url`. -/
def upperhex : List Char := "0123456789ABCDEF".data

/-- What `escape` of `net/url` writes for one byte in the mode
`encodeQueryComponent`: `+` for a space, `%XX` for a byte to escape, the
byte itself otherwise. -/
def escapeByte (c : Nat) : List Char :=
  if c = ' '.toNat then ['+']
  else if shouldEscape c then ['%', upperhex.getD (c / 16) '0', upperhex.getD (c % 16) '0']
  else [Char.ofNat c]

/-- The function `url.QueryEscape`. -/
def QueryEscape (s : String) : String :=
  String.mk ((bytes s).flatMap escapeByte)

/-- The type `url.Values`, a `map[string][]string`: one entry per key. -/
structure Values where
  entries : List (String × List String)
  deriving DecidableEq, Repr

/-- Update of the entry of `key` to `append(v[key], value)`. -/
def addEntry (key value : String) : List (String × List String) → List (String × List String)
  | [] => [(key, [value])]
  | (k, vs) :: rest =>
    if k = key then (k, vs ++ [value]) :: rest else (k, vs) :: addEntry key value rest

/-- The method `Values.Add`: `v[key] = append(v[key], value)`. -/
def Values.Add (v : Values) (key value : String) : Values :=
  { entries := addEntry key value v.entries }

/-- The map read `v[k]`. -/
def Values.lookup (v : Values) (k : String) : List String :=
  match v.entries.find? (fun e => e.1 = k) with
  | some e => e.2
  | none => []

/-- The inner loop of `Values.Encode` over the values of one key; `buf` is the
`strings.Builder`. -/
def encodeValues (keyEscaped : String) : List String → String → String
  | [], buf => buf
  | v :: vs, buf =>
    let buf1 := if (bytes buf).length > 0 then buf ++ "&" else buf
    encodeValues keyEscaped vs (buf1 ++ keyEscaped ++ "=" ++ QueryEscape v)

/-- The outer loop of `Values.Encode` over the sorted keys. -/
def encodeKeys (v : Values) : List String → String → String
  | [], buf => buf
  | k :: ks, buf => encodeKeys v ks (encodeValues (QueryEscape k) (v.lookup k) buf)

/-- The method `Values.Encode`: the parameters in URL-encoded form, sorted by
key, the values of one key in the order they were added. -/
def Values.Encode (v : Values) : String :=
  if v.entries.length = 0 then ""
  else encodeKeys v (sortByKey id (v.entries.map Prod.fst)) ""

/-! ## `main.go`: the exporter -/

/-- The response of `http.Client.Get`, as far as `scrape` reads it. -/
structure Response where
  Status : String
  StatusCode : Int
  Body : String
  deriving DecidableEq, Repr

/-- An error value made by a library (`net/http`, `encoding/xml`). -/
structure LibError where
  msg : String
  deriving DecidableEq, Repr

/-- The error values `scrape` can return, by where they are made: the error of
`client.Get`, the value of `fmt.Errorf` for a refused status, the error of
`decoder.Decode`, and the package variable `ErrNoResults`. -/
inductive GoError where
  | http (e : LibError)
  | errorf (msg : String)
  | xml (e : LibError)
  | ErrNoResults
  deriving DecidableEq, Repr

/-- The world outside the exporter: what `client.Get` returns for a URL, how
long that call blocks, and what `xml.NewDecoder(body).Decode` makes of a
body. -/
structure Upstream where
  Get : String → Except LibError Response
  latency : Nat
  Decode : String → Except LibError DotcomMonitorConfig

/-- DotcomMonitor scrapes the XML api from dotcom monitor for the given
sites (fields `pid` and `sites`; the client is the `Upstream`). -/
structure DotcomMonitor where
  pid : String
  sites : List String
  deriving DecidableEq, Repr

/-- The state a collection runs in: the clock and the metrics channel. -/
structure World where
  clock : Nat
  ch : List Metric
  deriving DecidableEq, Repr

/-- The function `NewDotcomMonitor` (the timeout is part of the `Upstream`). -/
def NewDotcomMonitor (pid : String) (sites : List String) : DotcomMonitor :=
  { pid := pid, sites := sites }

/-- The method `DotcomMonitor.Describe`. -/
def DotcomMonitor.Describe (_e : DotcomMonitor) (ch : List Desc) : List Desc :=
  ch ++ [dotcomScrapeSuccessDesc] ++ [dotcomDeviceStatusDesc]

/-- The `url.Values` that `scrape` builds: `PID` first, then one `site` per
configured site. -/
def DotcomMonitor.params (d : DotcomMonitor) : Values :=
  d.sites.foldl (fun params s => params.Add "site" s) ((Values.mk []).Add "PID" d.pid)

/-- The URL that `scrape` passes to `client.Get`. -/
def DotcomMonitor.requestURL (d : DotcomMonitor) : String :=
  "https://xmlreporter.dotcom-monitor.com/reporting/xml/status.aspx?" ++ d.params.Encode

/-- The method `DotcomMonitor.scrape`. -/
def DotcomMonitor.scrape (d : DotcomMonitor) (up : Upstream) (w : World) :
    Except String (Option GoError × World) :=
  let w1 : World := { w with clock := w.clock + up.latency }
  match up.Get d.requestURL with
  | .error err => pure (some (.http err), w1)
  | .ok res =>
    if res.StatusCode ≠ 200 then
      pure (some (.errorf ("did not receive a HTTP 200 OK, received HTTP " ++ res.Status)), w1)
    else
      match up.Decode res.Body with
      | .error err => pure (some (.xml err), w1)
      | .ok response =>
        if response.Devices.length = 0 then
          pure (some .ErrNoResults, w1)
        else do
          let ch ← response.Collect w1.ch
          pure (none, { w1 with ch := ch })

/-- The method `DotcomMonitor.Collect`. -/
def DotcomMonitor.Collect (d : DotcomMonitor) (up : Upstream) (w : World) :
    Except String World := do
  let ts := w.clock
  let (err, w1) ← d.scrape up w
  match err with
  | some _ =>
    let m ← MustNewConstMetric dotcomScrapeSuccessDesc .GaugeValue 0 []
    pure { w1 with ch := w1.ch ++ [NewMetricWithTimestamp ts m] }
  | none =>
    let m ← MustNewConstMetric dotcomScrapeSuccessDesc .GaugeValue 1 []
    pure { w1 with ch := w1.ch ++ [NewMetricWithTimestamp ts m] }


/-! ## Concurrent invocations of `Collect`

The operations of one `Collect` call that another goroutine can observe, and
the interleavings of several calls on one exporter. -/

/-- Observable operations of a goroutine that runs `Collect`. -/
inductive Op where
  | timeNow
  | muLock
  | muUnlock
  | getSend
  | getReturn
  | chanSend
  deriving DecidableEq, Repr

/-- The operations `DotcomMonitor.Collect` performs, in program order, for a
scrape that sends `n` device metrics (`n = 0` on the failure paths):
`ts := time.Now()`, then inside `scrape` the call `d.client.Get` (request out,
response in), the `n` sends of `response.Collect(ch)`, and the send of the
scrape-success metric. -/
def collectOps (n : Nat) : List Op :=
  [.timeNow, .getSend, .getReturn] ++ List.replicate n .chanSend ++ [.chanSend]

/-- A goroutine inside `Collect`: the operations still to do, and whether its
HTTP request is in flight. -/
structure Goroutine where
  todo : List Op
  fetching : Bool
  deriving DecidableEq, Repr

/-- The exporter shared by the goroutines: the state of `mu` and the
goroutines that run `Collect` on it. -/
structure Sys where
  muHeld : Bool
  routines : List Goroutine
  deriving DecidableEq, Repr

/-- One operation of a goroutine; `muLock` blocks while the mutex is held. -/
def stepRoutine (held : Bool) (g : Goroutine) : Bool × Goroutine :=
  match g.todo with
  | [] => (held, g)
  | .muLock :: rest => if held then (held, g) else (true, { g with todo := rest })
  | .muUnlock :: rest => (false, { g with todo := rest })
  | .getSend :: rest => (held, { todo := rest, fetching := true })
  | .getReturn :: rest => (held, { todo := rest, fetching := false })
  | _ :: rest => (held, { g with todo := rest })

/-- The scheduler lets goroutine `i` do its next operation. -/
def step (s : Sys) (i : Nat) : Sys :=
  match s.routines.get? i with
  | none => s
  | some g =>
    let r := stepRoutine s.muHeld g
    { muHeld := r.1, routines := s.routines.set i r.2 }

/-- A run under a schedule. -/
def run (s : Sys) (schedule : List Nat) : Sys :=
  schedule.foldl step s

/-- Number of HTTP requests in flight. -/
def inFlight (s : Sys) : Nat :=
  (s.routines.filter (fun g => g.fetching)).length

/-- The state in which `k` goroutines enter `Collect`, each for a scrape of `n`
devices. -/
def start (k n : Nat) : Sys :=
  { muHeld := false, routines := List.replicate k { todo := collectOps n, fetching := false } }

/-! ## Concrete upstreams used in the examples -/

/-- Decidable equality of `Except` values. -/
instance instDecidableEqExcept {ε α : Type} [DecidableEq ε] [DecidableEq α] :
    DecidableEq (Except ε α)
  | .ok a, .ok b =>
    if h : a = b then isTrue (by rw [h]) else isFalse (fun h2 => h (Except.ok.inj h2))
  | .error a, .error b =>
    if h : a = b then isTrue (by rw [h]) else isFalse (fun h2 => h (Except.error.inj h2))
  | .ok _, .error _ => isFalse (fun h => by cases h)
  | .error _, .ok _ => isFalse (fun h => by cases h)

/-- The two device records of the end-to-end scenario. -/
def twoDevices : DotcomMonitorConfig :=
  { Devices := [⟨"1", "A", "Down", "x"⟩, ⟨"2", "B", "Up", "y"⟩] }

/-- An upstream that answers `200 OK` after 5 ticks with a body that decodes to
`cfg`. -/
def upOK (cfg : DotcomMonitorConfig) : Upstream :=
  { Get := fun _ => .ok ⟨"200 OK", 200, "<body>"⟩, latency := 5, Decode := fun _ => .ok cfg }

/-- An upstream that answers with the given status. -/
def upStatus (status : String) (code : Int) : Upstream :=
  { Get := fun _ => .ok ⟨status, code, ""⟩, latency := 5, Decode := fun _ => .ok ⟨[]⟩ }

/-- An upstream that cannot be reached. -/
def upUnreachable : Upstream :=
  { Get := fun _ => .error ⟨"dial tcp: i/o timeout"⟩, latency := 10,
    Decode := fun _ => .ok ⟨[]⟩ }

/-- An upstream whose body does not decode. -/
def upMalformed : Upstream :=
  { Get := fun _ => .ok ⟨"200 OK", 200, "<Sites"⟩, latency := 5,
    Decode := fun _ => .error ⟨"XML syntax error on line 1: unexpected EOF"⟩ }

/-- An upstream that refuses every request; the error it returns records the
URL that `client.Get` was called with (as the `URL` field of `url.Error`
does). -/
def upEcho : Upstream :=
  { Get := fun u => .error ⟨u⟩, latency := 5, Decode := fun _ => .ok ⟨[]⟩ }

/-- The exporter with the default flags of `main`. -/
def defaultMonitor : DotcomMonitor :=
  NewDotcomMonitor "2AA43CD13DDS2CHJ20FGHY85DF203E33" ["*"]

/-- The metric `Device.Collect` sends for a device. -/
def deviceMetric (d : Device) : Metric :=
  { desc := dotcomDeviceStatusDesc, valType := .GaugeValue, val := stateValue d.State,
    labelPairs := [("id", d.ID), ("name", d.Name), ("status", d.Status)], timestamp := none }

/-- The scrape-success metric with value `v` and timestamp `ts`. -/
def successMetric (v ts : Nat) : Metric :=
  { desc := dotcomScrapeSuccessDesc, valType := .GaugeValue, val := v, labelPairs := [],
    timestamp := some ts }

/-! ## Lemmas on the collectors -/

theorem Device_Collect_eq (d : Device) (ch : List Metric) :
    d.Collect ch = .ok (ch ++ [deviceMetric d]) := rfl

theorem collectDevices_eq (ds : List Device) (ch : List Metric) :
    collectDevices ds ch = .ok (ch ++ ds.map deviceMetric) := by
  induction ds generalizing ch with
  | nil => simp [collectDevices, pure, Except.pure]
  | cons d ds ih =>
    simp only [collectDevices, Device_Collect_eq, bind, Except.bind, ih, List.map_cons,
      List.append_assoc, List.singleton_append]

theorem deviceMetric_desc_ne : dotcomDeviceStatusDesc ≠ dotcomScrapeSuccessDesc := by decide

/-- The result of `scrape`, by the stage it stops at. -/
theorem scrape_eq (d : DotcomMonitor) (up : Upstream) (w : World) :
    d.scrape up w =
      match up.Get d.requestURL with
      | .error err => .ok (some (.http err), ⟨w.clock + up.latency, w.ch⟩)
      | .ok res =>
        if res.StatusCode ≠ 200 then
          .ok (some (.errorf ("did not receive a HTTP 200 OK, received HTTP " ++ res.Status)),
            ⟨w.clock + up.latency, w.ch⟩)
        else
          match up.Decode res.Body with
          | .error err => .ok (some (.xml err), ⟨w.clock + up.latency, w.ch⟩)
          | .ok response =>
            if response.Devices = [] then
              .ok (some .ErrNoResults, ⟨w.clock + up.latency, w.ch⟩)
            else
              .ok (none, ⟨w.clock + up.latency, w.ch ++ response.Devices.map deviceMetric⟩) := by
  unfold DotcomMonitor.scrape
  cases hget : up.Get d.requestURL with
  | error err => rfl
  | ok res =>
    by_cases hs : res.StatusCode = 200
    · simp only [hs, ne_eq, not_true_eq_false, ↓reduceIte]
      cases hdec : up.Decode res.Body with
      | error err => rfl
      | ok response =>
        by_cases hd : response.Devices = []
        · simp [hd, pure, Except.pure]
        · simp [hd, pure, Except.pure, bind, Except.bind, DotcomMonitorConfig.Collect,
            collectDevices_eq]
    · simp [hs, pure, Except.pure]

/-- The result of `Collect` after a `scrape` that returned an error. -/
theorem Collect_of_scrape_error (d : DotcomMonitor) (up : Upstream) (w w1 : World)
    (e : GoError) (h : d.scrape up w = .ok (some e, w1)) :
    d.Collect up w = .ok ⟨w1.clock, w1.ch ++ [successMetric 0 w.clock]⟩ := by
  simp only [DotcomMonitor.Collect, h, bind, Except.bind]
  rfl

/-- The result of `Collect` after a `scrape` that returned `nil`. -/
theorem Collect_of_scrape_ok (d : DotcomMonitor) (up : Upstream) (w w1 : World)
    (h : d.scrape up w = .ok (none, w1)) :
    d.Collect up w = .ok ⟨w1.clock, w1.ch ++ [successMetric 1 w.clock]⟩ := by
  simp only [DotcomMonitor.Collect, h, bind, Except.bind]
  rfl


/-! ## The metric mapper -/

/-- C1: for every device record and every channel, `Device.Collect` does not
panic and sends exactly one metric, a gauge of the device-status family whose
value is 0 when `State` is exactly "Down", 1 when it is exactly "Up" and 2 for
every other string; the empty string, "unknown" and "UP" give 2. -/
theorem Device_Collect_state_value (d : Device) (ch : List Metric) :
    (∃ m, d.Collect ch = .ok (ch ++ [m]) ∧ m.desc = dotcomDeviceStatusDesc ∧
      m.valType = .GaugeValue ∧
      m.val = (if d.State = "Down" then 0 else if d.State = "Up" then 1 else 2)) ∧
    stateValue "" = 2 ∧ stateValue "unknown" = 2 ∧ stateValue "UP" = 2 ∧
    stateValue "Down" = 0 ∧ stateValue "Up" = 1 := by
  refine ⟨⟨deviceMetric d, Device_Collect_eq d ch, rfl, rfl, rfl⟩, ?_, ?_, ?_, ?_, ?_⟩ <;> decide

/-- Instance of C1 at the states "UP" and "" of a device whose status is
"OK". -/
theorem Device_Collect_state_value_witness :
    (∃ m, (Device.mk "7" "shop" "UP" "OK").Collect [] = .ok [m] ∧ m.val = 2) ∧
    (∃ m, (Device.mk "8" "blog" "" "OK").Collect [] = .ok [m] ∧ m.val = 2) := by
  obtain ⟨⟨m, h1, _, _, h4⟩, _⟩ := Device_Collect_state_value (Device.mk "7" "shop" "UP" "OK") []
  obtain ⟨⟨n, k1, _, _, k4⟩, _⟩ := Device_Collect_state_value (Device.mk "8" "blog" "" "OK") []
  exact ⟨⟨m, h1, h4⟩, ⟨n, k1, k4⟩⟩

/-- C8: for every device record, the metric `Device.Collect` sends belongs to
the descriptor with the label names id, name, status, and carries exactly
three label values, in that order: the record's `ID`, `Name` and `Status`,
verbatim. The value of the status label is the `Status` field, whatever the
`State` field holds. -/
theorem Device_Collect_labels (d : Device) (ch : List Metric) :
    ∃ m, d.Collect ch = .ok (ch ++ [m]) ∧
      m.desc.variableLabels = ["id", "name", "status"] ∧
      m.labelPairs = [("id", d.ID), ("name", d.Name), ("status", d.Status)] ∧
      m.labelPairs.map Prod.snd = [d.ID, d.Name, d.Status] ∧
      m.labelPairs.lookup "status" = some d.Status :=
  ⟨deviceMetric d, Device_Collect_eq d ch, rfl, rfl, rfl, rfl⟩

/-- Instance of C8 at a record whose state "Down" differs from its status
"x": the status label is "x". -/
theorem Device_Collect_labels_witness :
    ∃ m, (Device.mk "1" "A" "Down" "x").Collect [] = .ok [m] ∧
      m.labelPairs = [("id", "1"), ("name", "A"), ("status", "x")] := by
  obtain ⟨m, h1, _, h3, _⟩ := Device_Collect_labels (Device.mk "1" "A" "Down" "x") []
  exact ⟨m, h1, h3⟩

/-! ## The collection cycle -/

/-- C2: when `client.Get` returns a response, its status code is the accepted
one (200), the body decodes and the decoded list has N >= 1 devices, `Collect`
does not panic and sends exactly N+1 metrics: N of the device-status family
and one of the scrape-success family, whose value is 1. -/
theorem Collect_success_count (d : DotcomMonitor) (up : Upstream) (w : World)
    (res : Response) (response : DotcomMonitorConfig)
    (hget : up.Get d.requestURL = .ok res) (hstatus : res.StatusCode = 200)
    (hdec : up.Decode res.Body = .ok response) (hn : 1 ≤ response.Devices.length) :
    ∃ out, d.Collect up w = .ok ⟨w.clock + up.latency, w.ch ++ out⟩ ∧
      out.length = response.Devices.length + 1 ∧
      (out.filter (fun m => m.desc = dotcomDeviceStatusDesc)).length
        = response.Devices.length ∧
      ∃ m, out.filter (fun m => m.desc = dotcomScrapeSuccessDesc) = [m] ∧
        m.valType = .GaugeValue ∧ m.val = 1 := by
  have hne : response.Devices ≠ [] := by
    intro h
    rw [h] at hn
    exact absurd hn (by decide)
  have hs : d.scrape up w
      = .ok (none, ⟨w.clock + up.latency, w.ch ++ response.Devices.map deviceMetric⟩) := by
    rw [scrape_eq]
    simp [hget, hstatus, hdec, hne]
  refine ⟨response.Devices.map deviceMetric ++ [successMetric 1 w.clock], ?_, ?_, ?_, ?_⟩
  · rw [Collect_of_scrape_ok d up w _ hs, List.append_assoc]
  · simp
  · have h1 : (response.Devices.map deviceMetric).filter
        (fun m => m.desc = dotcomDeviceStatusDesc) = response.Devices.map deviceMetric := by
      apply List.filter_eq_self.mpr
      intro m hm
      obtain ⟨x, _, rfl⟩ := List.mem_map.mp hm
      simp [deviceMetric]
    have h2 : [successMetric 1 w.clock].filter (fun m => m.desc = dotcomDeviceStatusDesc)
        = [] := by
      apply List.filter_eq_nil_iff.mpr
      intro m hm
      rw [List.mem_singleton.mp hm]
      simpa [successMetric] using deviceMetric_desc_ne.symm
    rw [List.filter_append, h1, h2]
    simp
  · refine ⟨successMetric 1 w.clock, ?_, rfl, rfl⟩
    have h1 : (response.Devices.map deviceMetric).filter
        (fun m => m.desc = dotcomScrapeSuccessDesc) = [] := by
      apply List.filter_eq_nil_iff.mpr
      intro m hm
      obtain ⟨x, _, rfl⟩ := List.mem_map.mp hm
      simpa [deviceMetric] using deviceMetric_desc_ne
    rw [List.filter_append, h1]
    simp [successMetric]

/-- Instance of C2: the two devices of the end-to-end scenario give three
metrics. -/
theorem Collect_success_count_witness :
    ∃ out, defaultMonitor.Collect (upOK twoDevices) ⟨100, []⟩ = .ok ⟨105, [] ++ out⟩ ∧
      out.length = 2 + 1 ∧
      (out.filter (fun m => m.desc = dotcomDeviceStatusDesc)).length = 2 ∧
      ∃ m, out.filter (fun m => m.desc = dotcomScrapeSuccessDesc) = [m] ∧
        m.valType = .GaugeValue ∧ m.val = 1 :=
  Collect_success_count defaultMonitor (upOK twoDevices) ⟨100, []⟩ ⟨"200 OK", 200, "<body>"⟩
    twoDevices rfl rfl rfl (by decide)

/-- C3: when the scrape fails at any stage (`client.Get` returns an error, or
the status code is refused, or the body does not decode, or it decodes to zero
devices), `scrape` returns an error and leaves the channel as it found it, and
`Collect` does not panic and sends exactly one metric: the scrape-success
gauge with value 0. -/
theorem Collect_failure_single_sample (d : DotcomMonitor) (up : Upstream) (w : World)
    (hfail : (∃ err, up.Get d.requestURL = .error err) ∨
      ∃ res, up.Get d.requestURL = .ok res ∧
        (res.StatusCode ≠ 200 ∨ (∃ err, up.Decode res.Body = .error err) ∨
          ∃ response, up.Decode res.Body = .ok response ∧ response.Devices.length = 0)) :
    (∃ e, d.scrape up w = .ok (some e, ⟨w.clock + up.latency, w.ch⟩)) ∧
    ∃ m, d.Collect up w = .ok ⟨w.clock + up.latency, w.ch ++ [m]⟩ ∧
      m.desc = dotcomScrapeSuccessDesc ∧ m.valType = .GaugeValue ∧ m.val = 0 ∧
      m.desc ≠ dotcomDeviceStatusDesc := by
  have hs : ∃ e, d.scrape up w = .ok (some e, ⟨w.clock + up.latency, w.ch⟩) := by
    rw [scrape_eq]
    rcases hfail with ⟨err, h⟩ | ⟨res, h, hrest⟩
    · exact ⟨.http err, by simp [h]⟩
    · by_cases hc : res.StatusCode = 200
      · rcases hrest with h1 | ⟨err, h2⟩ | ⟨response, h3, h4⟩
        · exact absurd hc h1
        · exact ⟨.xml err, by simp [h, hc, h2]⟩
        · have h5 : response.Devices = [] := List.length_eq_zero.mp h4
          exact ⟨.ErrNoResults, by simp [h, hc, h3, h5]⟩
      · exact ⟨.errorf ("did not receive a HTTP 200 OK, received HTTP " ++ res.Status),
          by simp [h, hc]⟩
  refine ⟨hs, ?_⟩
  obtain ⟨e, he⟩ := hs
  exact ⟨successMetric 0 w.clock, Collect_of_scrape_error d up w _ e he, rfl, rfl, rfl,
    deviceMetric_desc_ne.symm⟩

/-- Instance of C3: the upstream answers HTTP 500. -/
theorem Collect_failure_single_sample_witness :
    (∃ e, defaultMonitor.scrape (upStatus "500 Internal Server Error" 500) ⟨100, []⟩
      = .ok (some e, ⟨100 + 5, []⟩)) ∧
    ∃ m, defaultMonitor.Collect (upStatus "500 Internal Server Error" 500) ⟨100, []⟩
        = .ok ⟨100 + 5, [] ++ [m]⟩ ∧
      m.desc = dotcomScrapeSuccessDesc ∧ m.valType = .GaugeValue ∧ m.val = 0 ∧
      m.desc ≠ dotcomDeviceStatusDesc :=
  Collect_failure_single_sample defaultMonitor (upStatus "500 Internal Server Error" 500)
    ⟨100, []⟩ (Or.inr ⟨⟨"500 Internal Server Error", 500, ""⟩, rfl, Or.inl (by decide)⟩)

/-- C4: on a successful scrape of the device records r_1..r_N (N >= 1), the
metrics `Collect` sends are, in this order, the metric of r_1, ..., the metric
of r_N and then the scrape-success gauge with value 1: the i-th metric sent is
the one `Device.Collect` sends for the i-th record of the response, and the
scrape-success metric is the last one. -/
theorem Collect_success_sequence (d : DotcomMonitor) (up : Upstream) (w : World)
    (res : Response) (response : DotcomMonitorConfig)
    (hget : up.Get d.requestURL = .ok res) (hstatus : res.StatusCode = 200)
    (hdec : up.Decode res.Body = .ok response) (hn : response.Devices ≠ []) :
    ∃ ms last, d.Collect up w = .ok ⟨w.clock + up.latency, w.ch ++ ms ++ [last]⟩ ∧
      ms = response.Devices.map (fun r =>
        { desc := dotcomDeviceStatusDesc, valType := .GaugeValue, val := stateValue r.State,
          labelPairs := [("id", r.ID), ("name", r.Name), ("status", r.Status)],
          timestamp := none }) ∧
      List.Forall₂ (fun r m => r.Collect [] = .ok [m]) response.Devices ms ∧
      last.desc = dotcomScrapeSuccessDesc ∧ last.val = 1 := by
  have hs : d.scrape up w
      = .ok (none, ⟨w.clock + up.latency, w.ch ++ response.Devices.map deviceMetric⟩) := by
    rw [scrape_eq]
    simp [hget, hstatus, hdec, hn]
  refine ⟨response.Devices.map deviceMetric, successMetric 1 w.clock,
    Collect_of_scrape_ok d up w _ hs, rfl, ?_, rfl, rfl⟩
  rw [List.forall₂_map_right_iff]
  exact List.forall₂_same.mpr (fun r _ => Device_Collect_eq r [])

/-- Instance of C4, the end-to-end scenario: the records (1,A,Down,x) and
(2,B,Up,y) give device_status of id 1 with value 0, device_status of id 2 with
value 1 and scrape_success with value 1, in that order. -/
theorem Collect_success_sequence_witness :
    ∃ m1 m2 last, defaultMonitor.Collect (upOK twoDevices) ⟨100, []⟩
        = .ok ⟨105, [m1, m2, last]⟩ ∧
      m1.desc.fqName = "dotcom_device_status" ∧ m1.labelPairs.lookup "id" = some "1" ∧
      m1.val = 0 ∧
      m2.desc.fqName = "dotcom_device_status" ∧ m2.labelPairs.lookup "id" = some "2" ∧
      m2.val = 1 ∧
      last.desc.fqName = "dotcom_scrape_success" ∧ last.val = 1 := by
  obtain ⟨ms, last, h, hms, _, hd, hv⟩ :=
    Collect_success_sequence defaultMonitor (upOK twoDevices) ⟨100, []⟩
      ⟨"200 OK", 200, "<body>"⟩ twoDevices rfl rfl rfl (by decide)
  subst hms
  refine ⟨_, _, last, h, ?_, ?_, ?_, ?_, ?_, ?_, ?_, hv⟩
  · decide
  · decide
  · decide
  · decide
  · decide
  · decide
  · rw [hd]
    decide


/-- For every upstream, `scrape` returns (it does not panic): the clock has
advanced by the latency of the request and the channel has grown by
device-status metrics only. -/
theorem scrape_total (d : DotcomMonitor) (up : Upstream) (w : World) :
    ∃ err pre, d.scrape up w = .ok (err, ⟨w.clock + up.latency, w.ch ++ pre⟩) ∧
      ∀ x ∈ pre, x.desc = dotcomDeviceStatusDesc := by
  rw [scrape_eq]
  cases hget : up.Get d.requestURL with
  | error err => exact ⟨some (.http err), [], by simp, by simp⟩
  | ok res =>
    by_cases hs : res.StatusCode = 200
    · cases hdec : up.Decode res.Body with
      | error err => exact ⟨some (.xml err), [], by simp [hs, hdec], by simp⟩
      | ok response =>
        by_cases hd : response.Devices = []
        · exact ⟨some .ErrNoResults, [], by simp [hs, hdec, hd], by simp⟩
        · refine ⟨none, response.Devices.map deviceMetric, by simp [hs, hdec, hd], ?_⟩
          intro x hx
          obtain ⟨r, _, rfl⟩ := List.mem_map.mp hx
          rfl
    · exact ⟨some (.errorf ("did not receive a HTTP 200 OK, received HTTP " ++ res.Status)),
        [], by simp [hs], by simp⟩

/-- C10: in every `Collect` invocation, whatever the upstream does (success
and every failure path), `Collect` returns, the last metric it sends is the
only scrape-success metric, and its timestamp is the clock reading taken at
the start of `Collect`, before the scrape; when the request took time, that
is not the clock reading at emission. -/
theorem Collect_timestamp_is_start (d : DotcomMonitor) (up : Upstream) (w : World) :
    ∃ pre m w1, d.Collect up w = .ok w1 ∧ w1.ch = w.ch ++ pre ++ [m] ∧
      w1.clock = w.clock + up.latency ∧
      (∀ x ∈ pre, x.desc ≠ dotcomScrapeSuccessDesc) ∧
      m.desc = dotcomScrapeSuccessDesc ∧ m.timestamp = some w.clock ∧
      (0 < up.latency → m.timestamp ≠ some w1.clock) := by
  obtain ⟨err, pre, hs, hpre⟩ := scrape_total d up w
  have hne : ∀ x ∈ pre, x.desc ≠ dotcomScrapeSuccessDesc := by
    intro x hx
    rw [hpre x hx]
    exact deviceMetric_desc_ne
  have hlate : ∀ v, 0 < up.latency →
      (successMetric v w.clock).timestamp ≠ some (w.clock + up.latency) := by
    intro v hpos h
    have h2 : w.clock = w.clock + up.latency := Option.some.inj h
    omega
  cases err with
  | some e =>
    exact ⟨pre, successMetric 0 w.clock, _, Collect_of_scrape_error d up w _ e hs, rfl, rfl,
      hne, rfl, rfl, hlate 0⟩
  | none =>
    exact ⟨pre, successMetric 1 w.clock, _, Collect_of_scrape_ok d up w _ hs, rfl, rfl,
      hne, rfl, rfl, hlate 1⟩

/-- Instance of C10: a request that fails after 10 ticks, entered at clock
100: the scrape-success metric is stamped 100 and not 110. -/
theorem Collect_timestamp_is_start_witness :
    ∃ m, defaultMonitor.Collect upUnreachable ⟨100, []⟩ = .ok ⟨110, [m]⟩ ∧
      m.timestamp = some 100 ∧ m.timestamp ≠ some 110 := by
  obtain ⟨pre, m, w1, h1, h2, h3, _, _, h6, h7⟩ :=
    Collect_timestamp_is_start defaultMonitor upUnreachable ⟨100, []⟩
  have hc : defaultMonitor.Collect upUnreachable ⟨100, []⟩
      = .ok ⟨110, [successMetric 0 100]⟩ := by decide
  rw [hc] at h1
  have hw : w1 = ⟨110, [successMetric 0 100]⟩ := (Except.ok.inj h1).symm
  subst hw
  have hm : pre ++ [m] = [successMetric 0 100] := by simpa using h2.symm
  have hm2 : m = successMetric 0 100 := by
    have := congrArg List.getLast? hm
    simpa using this
  subst hm2
  exact ⟨_, hc, h6, h7 (by decide)⟩

/-! ## The error returns of `scrape` -/

/-- C5, as the claim states it, fails: a response with the 2xx status code 204
is refused with the HTTP-status error. -/
theorem scrape_refuses_204 :
    ¬ ∀ (d : DotcomMonitor) (up : Upstream) (w : World) (res : Response),
      up.Get d.requestURL = .ok res →
      ((∃ msg w1, d.scrape up w = .ok (some (.errorf msg), w1)) ↔
        ¬ (200 ≤ res.StatusCode ∧ res.StatusCode ≤ 299)) := by
  intro h
  have h1 := h defaultMonitor (upStatus "204 No Content" 204) ⟨0, []⟩
    ⟨"204 No Content", 204, ""⟩ rfl
  have h2 : ∃ msg w1, defaultMonitor.scrape (upStatus "204 No Content" 204) ⟨0, []⟩
      = .ok (some (.errorf msg), w1) :=
    ⟨"did not receive a HTTP 200 OK, received HTTP 204 No Content", ⟨5, []⟩, by decide⟩
  exact h1.mp h2 (by decide)

/-- C5, amended: for every response that `client.Get` returns, `scrape`
returns the HTTP-status error exactly when the status code differs from 200
(the error names the received status and nothing is sent on the channel); a
response with status code 200 is not refused: `scrape` goes on to decode the
body and its result is the one the decoding gives. -/
theorem scrape_status_error_iff (d : DotcomMonitor) (up : Upstream) (w : World)
    (res : Response) (hget : up.Get d.requestURL = .ok res) :
    ((∃ msg w1, d.scrape up w = .ok (some (.errorf msg), w1)) ↔ res.StatusCode ≠ 200) ∧
    (res.StatusCode ≠ 200 →
      d.scrape up w = .ok (some (.errorf
        ("did not receive a HTTP 200 OK, received HTTP " ++ res.Status)),
        ⟨w.clock + up.latency, w.ch⟩)) ∧
    (res.StatusCode = 200 →
      d.scrape up w =
        match up.Decode res.Body with
        | .error err => .ok (some (.xml err), ⟨w.clock + up.latency, w.ch⟩)
        | .ok response =>
          if response.Devices = [] then
            .ok (some .ErrNoResults, ⟨w.clock + up.latency, w.ch⟩)
          else
            .ok (none, ⟨w.clock + up.latency, w.ch ++ response.Devices.map deviceMetric⟩)) := by
  have h200 : res.StatusCode = 200 →
      d.scrape up w =
        match up.Decode res.Body with
        | .error err => .ok (some (.xml err), ⟨w.clock + up.latency, w.ch⟩)
        | .ok response =>
          if response.Devices = [] then
            .ok (some .ErrNoResults, ⟨w.clock + up.latency, w.ch⟩)
          else
            .ok (none, ⟨w.clock + up.latency, w.ch ++ response.Devices.map deviceMetric⟩) := by
    intro hc
    rw [scrape_eq]
    simp [hget, hc]
  have hne : res.StatusCode ≠ 200 →
      d.scrape up w = .ok (some (.errorf
        ("did not receive a HTTP 200 OK, received HTTP " ++ res.Status)),
        ⟨w.clock + up.latency, w.ch⟩) := by
    intro hc
    rw [scrape_eq]
    simp [hget, hc]
  refine ⟨⟨?_, fun hc => ⟨_, _, hne hc⟩⟩, hne, h200⟩
  rintro ⟨msg, w1, h⟩ hc
  rw [h200 hc] at h
  cases hdec : up.Decode res.Body with
  | error err =>
    rw [hdec] at h
    simp at h
  | ok response =>
    rw [hdec] at h
    by_cases hd : response.Devices = []
    · simp [hd] at h
    · simp [hd] at h

/-- Instance of amended C5: status 204 is refused, with the error that names
the status. -/
theorem scrape_status_error_iff_witness :
    defaultMonitor.scrape (upStatus "204 No Content" 204) ⟨0, []⟩
      = .ok (some (.errorf ("did not receive a HTTP 200 OK, received HTTP "
          ++ "204 No Content")), ⟨0 + 5, []⟩) :=
  (scrape_status_error_iff defaultMonitor (upStatus "204 No Content" 204) ⟨0, []⟩
    ⟨"204 No Content", 204, ""⟩ rfl).2.1 (by decide)

/-- C6: when `client.Get` returns a response with the accepted status and the
body decodes, `scrape` returns `ErrNoResults` if and only if the decoded device
list is empty. Whenever `scrape` returns an error, that error is `ErrNoResults`
only in this case: the error of a failed request, of a refused status and of a
failed decoding are values different from `ErrNoResults`. -/
theorem scrape_ErrNoResults_iff (d : DotcomMonitor) (up : Upstream) (w : World) :
    (∀ res response, up.Get d.requestURL = .ok res → res.StatusCode = 200 →
      up.Decode res.Body = .ok response →
      ((∃ w1, d.scrape up w = .ok (some .ErrNoResults, w1)) ↔ response.Devices.length = 0)) ∧
    (∀ e w1, d.scrape up w = .ok (some e, w1) →
      (e = .ErrNoResults ↔
        ∃ res response, up.Get d.requestURL = .ok res ∧ res.StatusCode = 200 ∧
          up.Decode res.Body = .ok response ∧ response.Devices.length = 0)) ∧
    (∀ err, up.Get d.requestURL = .error err →
      ∃ w1, d.scrape up w = .ok (some (.http err), w1) ∧ GoError.http err ≠ .ErrNoResults) ∧
    (∀ res, up.Get d.requestURL = .ok res → res.StatusCode ≠ 200 →
      ∃ msg w1, d.scrape up w = .ok (some (.errorf msg), w1) ∧
        GoError.errorf msg ≠ .ErrNoResults) ∧
    (∀ res err, up.Get d.requestURL = .ok res → res.StatusCode = 200 →
      up.Decode res.Body = .error err →
      ∃ w1, d.scrape up w = .ok (some (.xml err), w1) ∧ GoError.xml err ≠ .ErrNoResults) := by
  refine ⟨?_, ?_, ?_, ?_, ?_⟩
  · intro res response hget hc hdec
    rw [scrape_eq]
    by_cases hd : response.Devices = []
    · simp [hget, hc, hdec, hd]
    · simp [hget, hc, hdec, hd]
  · intro e w1 h
    rw [scrape_eq] at h
    cases hget : up.Get d.requestURL with
    | error err =>
      rw [hget] at h
      simp at h
      simp [← h.1]
    | ok res =>
      rw [hget] at h
      by_cases hc : res.StatusCode = 200
      · cases hdec : up.Decode res.Body with
        | error err =>
          simp [hc, hdec] at h
          simp [← h.1, hc, hdec]
        | ok response =>
          by_cases hd : response.Devices = []
          · simp [hc, hdec, hd] at h
            simp [← h.1, hc, hdec, hd]
          · simp [hc, hdec, hd] at h
      · simp [hc] at h
        simp [← h.1, hc]
  · intro err hget
    exact ⟨⟨w.clock + up.latency, w.ch⟩, by rw [scrape_eq]; simp [hget], by simp⟩
  · intro res hget hc
    exact ⟨"did not receive a HTTP 200 OK, received HTTP " ++ res.Status,
      ⟨w.clock + up.latency, w.ch⟩, by rw [scrape_eq]; simp [hget, hc], by simp⟩
  · intro res err hget hc hdec
    exact ⟨⟨w.clock + up.latency, w.ch⟩, by rw [scrape_eq]; simp [hget, hc, hdec], by simp⟩

/-- Instance of C6: a `200 OK` response whose body decodes to zero devices
gives `ErrNoResults`; a body that does not decode gives another error. -/
theorem scrape_ErrNoResults_iff_witness :
    (∃ w1, defaultMonitor.scrape (upOK ⟨[]⟩) ⟨0, []⟩ = .ok (some .ErrNoResults, w1)) ∧
    (∃ w1, defaultMonitor.scrape upMalformed ⟨0, []⟩
        = .ok (some (.xml ⟨"XML syntax error on line 1: unexpected EOF"⟩), w1) ∧
      GoError.xml ⟨"XML syntax error on line 1: unexpected EOF"⟩ ≠ .ErrNoResults) :=
  ⟨((scrape_ErrNoResults_iff defaultMonitor (upOK ⟨[]⟩) ⟨0, []⟩).1 ⟨"200 OK", 200, "<body>"⟩
      ⟨[]⟩ rfl rfl rfl).mpr rfl,
    (scrape_ErrNoResults_iff defaultMonitor upMalformed ⟨0, []⟩).2.2.2.2
      ⟨"200 OK", 200, "<Sites"⟩ _ rfl rfl rfl⟩

/-! ## Concurrent collections -/

/-- C7, evaluated on the code: `Collect` performs no lock operation on `mu`
for any number of devices, and under the schedule in which two callers each
take the time and send their request, two requests are in flight at once while
`mu` is free; with five callers, five are. -/
theorem Collect_requests_overlap :
    (∀ n, Op.muLock ∉ collectOps n) ∧
    inFlight (run (start 2 1) [0, 0, 1, 1]) = 2 ∧
    (run (start 2 1) [0, 0, 1, 1]).muHeld = false ∧
    inFlight (run (start 5 1) [0, 0, 1, 1, 2, 2, 3, 3, 4, 4]) = 5 := by
  refine ⟨?_, by decide, by decide, by decide⟩
  intro n h
  simp [collectOps] at h


/-! ## The request URL -/

theorem bytes_append (a b : String) : bytes (a ++ b) = bytes a ++ bytes b := by
  simp [bytes, String.data_append, List.flatMap_append]

/-- The parameters `scrape` has built after the `PID` and some `site` values. -/
theorem foldl_Add_site (pid : String) (acc sites : List String) :
    sites.foldl (fun params s => params.Add "site" s)
        (Values.mk [("PID", [pid]), ("site", acc)])
      = Values.mk [("PID", [pid]), ("site", acc ++ sites)] := by
  induction sites generalizing acc with
  | nil => simp
  | cons s rest ih =>
    have h : (Values.mk [("PID", [pid]), ("site", acc)]).Add "site" s
        = Values.mk [("PID", [pid]), ("site", acc ++ [s])] := by
      simp [Values.Add, addEntry]
    rw [List.foldl_cons, h, ih]
    simp

/-- The map `scrape` encodes. -/
theorem params_entries (pid : String) (sites : List String) :
    (NewDotcomMonitor pid sites).params
      = match sites with
        | [] => Values.mk [("PID", [pid])]
        | _ :: _ => Values.mk [("PID", [pid]), ("site", sites)] := by
  cases sites with
  | nil => rfl
  | cons s rest =>
    have h : ((Values.mk []).Add "PID" pid).Add "site" s
        = Values.mk [("PID", [pid]), ("site", [] ++ [s])] := by
      simp [Values.Add, addEntry]
    simp only [DotcomMonitor.params, NewDotcomMonitor, List.foldl_cons, h, foldl_Add_site]
    simp

/-- The inner loop of `Encode` on a buffer that is not empty. -/
theorem encodeValues_nonempty (k : String) (vs : List String) (buf : String)
    (hbuf : 0 < (bytes buf).length) :
    encodeValues k vs buf
      = String.intercalate.go buf "&" (vs.map (fun v => k ++ "=" ++ QueryEscape v)) := by
  induction vs generalizing buf with
  | nil => simp [encodeValues, String.intercalate.go]
  | cons v rest ih =>
    have hlen : 0 < (bytes (buf ++ "&" ++ k ++ "=" ++ QueryEscape v)).length := by
      simp only [bytes_append, List.length_append]
      omega
    simp only [encodeValues, hbuf, ↓reduceIte, List.map_cons, String.intercalate.go]
    rw [ih _ hlen]
    simp [String.append_assoc]

/-- Closed form of the URL that `scrape` builds. -/
theorem requestURL_eq (pid : String) (sites : List String) :
    (NewDotcomMonitor pid sites).requestURL
      = "https://xmlreporter.dotcom-monitor.com/reporting/xml/status.aspx?"
        ++ String.intercalate "&"
          (("PID=" ++ QueryEscape pid) :: sites.map (fun s => "site=" ++ QueryEscape s)) := by
  have hk1 : QueryEscape "PID" = "PID" := by decide
  have hk2 : QueryEscape "site" = "site" := by decide
  have hpid : "" ++ "PID" ++ "=" ++ QueryEscape pid = "PID=" ++ QueryEscape pid := by
    have : "" ++ "PID" ++ "=" = "PID=" := by decide
    rw [this]
  have hsite : ∀ s, "site" ++ "=" ++ QueryEscape s = "site=" ++ QueryEscape s := by
    intro s
    have : "site" ++ "=" = "site=" := by decide
    rw [this]
  unfold DotcomMonitor.requestURL
  rw [params_entries]
  congr 1
  cases sites with
  | nil =>
    have hsort : sortByKey id ["PID"] = ["PID"] := by decide
    simp [Values.Encode, hsort, encodeKeys, Values.lookup, hk1, encodeValues, bytes, hpid,
      String.intercalate, String.intercalate.go]
  | cons s rest =>
    have hsort : sortByKey id ["PID", "site"] = ["PID", "site"] := by decide
    have hl1 : (Values.mk [("PID", [pid]), ("site", s :: rest)]).lookup "PID" = [pid] := by
      simp [Values.lookup]
    have hl2 : (Values.mk [("PID", [pid]), ("site", s :: rest)]).lookup "site"
        = s :: rest := by
      simp [Values.lookup]
    have hempty : ¬ (0 < (bytes "").length) := by decide
    have hlen : 0 < (bytes ("PID=" ++ QueryEscape pid)).length := by
      rw [bytes_append, List.length_append]
      have : (bytes "PID=").length = 4 := by decide
      omega
    have hfirst : encodeValues "PID" [pid] "" = "PID=" ++ QueryEscape pid := by
      simp only [encodeValues, hempty, ↓reduceIte, hpid, gt_iff_lt]
    have hnz : ¬ ([("PID", [pid]), ("site", s :: rest)].length = 0) := by simp
    simp only [Values.Encode, hnz, ↓reduceIte, List.map_cons, List.map_nil, hsort, encodeKeys,
      hl1, hl2, hk1, hk2, hfirst]
    rw [encodeValues_nonempty _ _ _ hlen]
    simp [String.intercalate, hsite]

/-- C9: for every account identifier and every list of site filters, the URL
`scrape` requests is the fixed endpoint followed by the parameters
`PID=<escaped pid>` and then `site=<escaped s_i>` for each configured site, in
the configured order and with duplicates kept, joined by `&`. `scrape` calls
`client.Get` with exactly this URL: its result is the one that the answer of
`client.Get` to this URL determines, no other URL matters, and an upstream
that records the URL it is asked for records this one. -/
theorem scrape_request_url (pid : String) (sites : List String) :
    (NewDotcomMonitor pid sites).requestURL
      = "https://xmlreporter.dotcom-monitor.com/reporting/xml/status.aspx?"
        ++ String.intercalate "&"
          (("PID=" ++ QueryEscape pid) :: sites.map (fun s => "site=" ++ QueryEscape s)) ∧
    (∀ (up : Upstream) (w : World),
      (NewDotcomMonitor pid sites).scrape up w
        = (NewDotcomMonitor pid sites).scrape
            { up with Get := fun u =>
                if u = "https://xmlreporter.dotcom-monitor.com/reporting/xml/status.aspx?"
                    ++ String.intercalate "&" (("PID=" ++ QueryEscape pid)
                      :: sites.map (fun s => "site=" ++ QueryEscape s))
                then up.Get u else .error ⟨"not requested"⟩ } w) ∧
    (∀ (up : Upstream) (w : World),
      (NewDotcomMonitor pid sites).scrape up w
        = match up.Get ("https://xmlreporter.dotcom-monitor.com/reporting/xml/status.aspx?"
              ++ String.intercalate "&" (("PID=" ++ QueryEscape pid)
                :: sites.map (fun s => "site=" ++ QueryEscape s))) with
          | .error err => .ok (some (.http err), ⟨w.clock + up.latency, w.ch⟩)
          | .ok res =>
            if res.StatusCode ≠ 200 then
              .ok (some (.errorf
                ("did not receive a HTTP 200 OK, received HTTP " ++ res.Status)),
                ⟨w.clock + up.latency, w.ch⟩)
            else
              match up.Decode res.Body with
              | .error err => .ok (some (.xml err), ⟨w.clock + up.latency, w.ch⟩)
              | .ok response =>
                if response.Devices = [] then
                  .ok (some .ErrNoResults, ⟨w.clock + up.latency, w.ch⟩)
                else
                  .ok (none,
                    ⟨w.clock + up.latency, w.ch ++ response.Devices.map deviceMetric⟩)) ∧
    ∀ (w : World),
      (NewDotcomMonitor pid sites).scrape upEcho w
        = .ok (some (.http ⟨"https://xmlreporter.dotcom-monitor.com/reporting/xml/status.aspx?"
              ++ String.intercalate "&" (("PID=" ++ QueryEscape pid)
                :: sites.map (fun s => "site=" ++ QueryEscape s))⟩),
            ⟨w.clock + 5, w.ch⟩) := by
  have hurl := requestURL_eq pid sites
  refine ⟨hurl, ?_, ?_, ?_⟩
  · intro up w
    simp only [DotcomMonitor.scrape, hurl, ↓reduceIte]
  · intro up w
    rw [scrape_eq, hurl]
  · intro w
    rw [scrape_eq, hurl]
    rfl

/-- Instance of C9: with an account identifier that has a space and the site
filters `*`, `x&y`, `*`, the upstream that records the requested URL is asked
for `...status.aspx?PID=a+b&site=%2A&site=x%26y&site=%2A`. -/
theorem scrape_request_url_witness :
    (NewDotcomMonitor "a b" ["*", "x&y", "*"]).scrape upEcho ⟨0, []⟩
      = .ok (some (.http ⟨"https://xmlreporter.dotcom-monitor.com/reporting/xml/status.aspx?"
            ++ "PID=a+b&site=%2A&site=x%26y&site=%2A"⟩), ⟨5, []⟩) :=
  ((scrape_request_url "a b" ["*", "x&y", "*"]).2.2.2 ⟨0, []⟩).trans (by decide)

end Dotcom
